import Mathlib

/-!
Shallow embedding of the llama-hackathon backend handlers
(`src/backend/app/api/v1/endpoints/applications.py`,
`src/backend/app/api/v1/endpoints/documents.py`) together with proofs
about the claims of the specification.

Modelling conventions:
* Python `datetime` values are modelled as calendar dates `PyDate`
  (year, month, day); the handlers never rely on sub-day precision.
* Firestore documents that the code manipulates as raw dicts are
  modelled as association lists `Dict := List (String × Val)`.
* Each handler is a pure function taking the record(s) it fetches and
  the ambient inputs (current user uid, generated uuid, current time)
  and returning an explicit result structure that records the HTTP
  status, every store/blob write attempted, and the response payload.
-/

/-- Calendar date, standing in for Python `datetime` values.
Ordering is lexicographic (year, month, day). -/
structure PyDate where
  year : Int
  month : Int
  day : Int
deriving DecidableEq, Repr, Inhabited

/-- `datetime` comparison `a <= b` (lexicographic on year, month, day). -/
def PyDate.le (a b : PyDate) : Bool :=
  (a.year < b.year) ||
  (a.year = b.year && a.month < b.month) ||
  (a.year = b.year && a.month = b.month && a.day ≤ b.day)

/-- Gregorian leap-year test, as used by Python's `datetime` validation. -/
def isLeap (y : Int) : Bool :=
  (y % 4 == 0 && y % 100 != 0) || (y % 400 == 0)

/-- Number of days in a month of the Gregorian calendar. -/
def daysInMonth (y m : Int) : Int :=
  if m = 2 then (if isLeap y then 29 else 28)
  else if m = 4 ∨ m = 6 ∨ m = 9 ∨ m = 11 then 30
  else 31

/-- Validity check performed by the Python `datetime(year, month, day)`
constructor (year bounds omitted; the claims never leave them). -/
def dateValid (y m d : Int) : Bool :=
  1 ≤ m && m ≤ 12 && 1 ≤ d && d ≤ daysInMonth y m

/-- Python `datetime(year, month, day)`: yields the date or raises
`ValueError` (modelled as `Except.error`). -/
def mkDatetime (y m d : Int) : Except String PyDate :=
  if dateValid y m d then .ok ⟨y, m, d⟩ else .error "ValueError"

/-- Values stored in a Firestore document dict. -/
inductive Val where
  | vs : String → Val
  | vn : Nat → Val
  | vd : PyDate → Val
  | vlist : List String → Val
  | vnone : Val
deriving DecidableEq, Repr

/-- A Firestore document as the Python code sees it: a dict. -/
abbrev Dict := List (String × Val)

/-- Python `d.get(k)` (`None` when absent is `Option.none`). -/
def dictGet (d : Dict) (k : String) : Option Val :=
  (d.find? (fun kv => kv.1 = k)).map (fun kv => kv.2)

/-- Python `str.strip()` restricted to ASCII whitespace. -/
def pyStrip (s : String) : String :=
  ⟨((s.data.dropWhile Char.isWhitespace).reverse.dropWhile Char.isWhitespace).reverse⟩

/-- Helper for `pySplit`: walks the characters accumulating the current
piece (reversed); every separator ends a piece. -/
def pySplitAux (sep : Char) : List Char → List Char → List (List Char)
  | [], acc => [acc.reverse]
  | c :: rest, acc =>
    if c = sep then acc.reverse :: pySplitAux sep rest []
    else pySplitAux sep rest (c :: acc)

/-- Python `s.split(sep)` for a one-character separator: keeps empty
pieces, never drops a trailing piece. -/
def pySplit (sep : Char) (s : String) : List String :=
  (pySplitAux sep s.data []).map (fun cs => ⟨cs⟩)

/-- Tag parsing of `upload_document` (documents.py lines 62-64):
`tag_list = []; if tags: tag_list = [t.strip() for t in tags.split(",") if t.strip()]`.
A Python list comprehension filters first, then maps. -/
def parse_tags : Option String → List String
  | none => []
  | some s =>
    if s = "" then []
    else ((pySplit ',' s).filter (fun t => pyStrip t ≠ "")).map pyStrip

/-- Spec-side description of tag parsing, written from the spec's words:
"the list of its comma-separated pieces with surrounding whitespace
trimmed and empty pieces dropped". -/
def specTags (s : String) : List String :=
  ((pySplit ',' s).map pyStrip).filter (fun t => t ≠ "")

/-! ## Application handler (applications.py) -/

/-- Embedded step entry of an application (schema `ApplicationStep`). -/
structure StepDoc where
  step_id : String
  title : String
  description : String
  priority_score : Int
  requires_document : Bool
  document_id : Option String
  status : String
  source_urls : List String
deriving DecidableEq, Repr, Inhabited

/-- Request payload of `PUT /applications/{app_id}/steps/{step_id}`
(schema `ApplicationStepUpdate`). -/
structure StepUpdate where
  document_id : Option String
  status : Option String
deriving DecidableEq, Repr

/-- A stored application record (the dict built in `create_application`
and manipulated by the update handlers). -/
structure ApplicationDoc where
  app_id : String
  user_id : String
  application_name : String
  country_code : String
  status : String
  application_steps : List StepDoc
  created_at : PyDate
  updated_at : PyDate
deriving DecidableEq, Repr, Inhabited

/-- Request payload of `POST /applications` (schema `ApplicationCreate`). -/
structure ApplicationCreateData where
  application_name : String
  country_code : String
deriving DecidableEq, Repr

/-- Response shape `ApplicationResponse`: the application fields plus the
schema's two optional timestamps (defaulting to null). -/
structure ApplicationResponseDoc where
  app_id : String
  user_id : String
  application_name : String
  country_code : String
  status : String
  application_steps : List StepDoc
  created_at : PyDate
  updated_at : PyDate
  submitted_at : Option PyDate
  approved_at : Option PyDate
deriving DecidableEq, Repr

/-- `ApplicationResponse(**application_doc)`: every field of the stored
record verbatim, the two optional timestamps defaulting to `None`. -/
def docToResponse (a : ApplicationDoc) : ApplicationResponseDoc :=
  ⟨a.app_id, a.user_id, a.application_name, a.country_code, a.status,
   a.application_steps, a.created_at, a.updated_at, none, none⟩

/-- Result of `create_application`: status code, the `set()` calls made
to the APPLICATION collection (document id, record), and the response. -/
structure CreateAppResult where
  httpStatus : Nat
  writes : List (String × ApplicationDoc)
  response : ApplicationResponseDoc
deriving DecidableEq, Repr

/-- `create_application` (applications.py lines 15-48): build the record
with a generated uuid `appId` and `now = datetime.utcnow()`, store it,
return it as an `ApplicationResponse`. -/
def create_application (data : ApplicationCreateData) (uid appId : String)
    (now : PyDate) : CreateAppResult :=
  let doc : ApplicationDoc :=
    { app_id := appId
      user_id := uid
      application_name := data.application_name
      country_code := data.country_code
      status := "DRAFT"
      application_steps := []
      created_at := now
      updated_at := now }
  ⟨201, [(appId, doc)], docToResponse doc⟩

/-- A Firestore `update()` call issued by `update_application`: merge of
`updated_at` and, when supplied, `status`. -/
structure AppPatch where
  updated_at : PyDate
  status : Option String
deriving DecidableEq, Repr

/-- Effect of a Firestore `update()` merge on a stored application. -/
def applyAppPatch (a : ApplicationDoc) (p : AppPatch) : ApplicationDoc :=
  { a with updated_at := p.updated_at, status := p.status.getD a.status }

/-- Result of `update_application`: status code, the `update()` calls
made (document id, patch), and the response (the re-fetched record). -/
structure UpdateAppResult where
  httpStatus : Nat
  patches : List (String × AppPatch)
  response : Option ApplicationResponseDoc
deriving DecidableEq, Repr

/-- `update_application` (applications.py lines 77-120): fetch (`fetched`
is the store's answer), 404 when absent, 403 on ownership mismatch, then
`update_data = {"updated_at": now}` extended with `status` when supplied,
one `update()` call, re-fetch and return the merged record. -/
def update_application (fetched : Option ApplicationDoc) (appId : String)
    (statusUpdate : Option String) (uid : String) (now : PyDate) :
    UpdateAppResult :=
  match fetched with
  | none => ⟨404, [], none⟩
  | some app =>
    if app.user_id ≠ uid then ⟨403, [], none⟩
    else
      let p : AppPatch := ⟨now, statusUpdate⟩
      ⟨200, [(appId, p)], some (docToResponse (applyAppPatch app p))⟩

/-- The in-place mutation of one step dict performed inside the loop of
`update_application_step` (applications.py lines 153-156): apply
`document_id` when supplied, then `status` when supplied. -/
def applyStepUpdate (u : StepUpdate) (s : StepDoc) : StepDoc :=
  let s1 := match u.document_id with
    | some d => { s with document_id := some d }
    | none => s
  match u.status with
  | some st => { s1 with status := st }
  | none => s1

/-- The scan-and-patch loop of `update_application_step` (applications.py
lines 150-158): patch the first step whose `step_id` matches and stop
(`break`); `none` when no step matches (`step_found` stays false). -/
def patchSteps (stepId : String) (u : StepUpdate) :
    List StepDoc → Option (List StepDoc)
  | [] => none
  | s :: rest =>
    if s.step_id = stepId then some (applyStepUpdate u s :: rest)
    else (patchSteps stepId u rest).map (fun l => s :: l)

/-- Result of `update_application_step`: status code, the full-document
`set()` calls made (document id, record), and the response. -/
structure StepUpdateResult where
  httpStatus : Nat
  writes : List (String × ApplicationDoc)
  response : Option ApplicationResponseDoc
deriving DecidableEq, Repr

/-- `update_application_step` (applications.py lines 122-179): fetch,
404 when absent, 403 on ownership mismatch, patch the first matching
step, 404 when none matches (before any write), otherwise write the
whole record back with `set()` and return it. -/
def update_application_step (fetched : Option ApplicationDoc)
    (appId stepId : String) (u : StepUpdate) (uid : String) (now : PyDate) :
    StepUpdateResult :=
  match fetched with
  | none => ⟨404, [], none⟩
  | some app =>
    if app.user_id ≠ uid then ⟨403, [], none⟩
    else
      match patchSteps stepId u app.application_steps with
      | none => ⟨404, [], none⟩
      | some steps1 =>
        let app1 := { app with application_steps := steps1, updated_at := now }
        ⟨200, [(appId, app1)], some (docToResponse app1)⟩

/-- Concrete application fixture used by witness theorems: one step
`s1` with status `"pending"`, owned by `u1`. -/
def appFixture : ApplicationDoc :=
  { app_id := "a1"
    user_id := "u1"
    application_name := "A"
    country_code := "US"
    status := "DRAFT"
    application_steps :=
      [{ step_id := "s1", title := "T", description := "D", priority_score := 1,
         requires_document := false, document_id := none, status := "pending",
         source_urls := [] }]
    created_at := ⟨2026, 1, 1⟩
    updated_at := ⟨2026, 1, 1⟩ }

/-! ## Document handler (documents.py) -/

/-- Uploaded multipart file as `upload_document` sees it: filename,
raw bytes (the result of `await file.read()`), declared content type. -/
structure UploadFile where
  filename : String
  content : List Nat
  content_type : Option String
deriving DecidableEq, Repr

/-- `os.path.splitext(name)[1]` for plain file names (no separators):
the suffix starting at the last dot; empty when there is no dot or when
every character before the last dot is a dot (hidden-file rule). -/
def splitext_ext (s : String) : String :=
  let cs := s.data
  match ((List.range cs.length).filter (fun i => cs.getD i ' ' = '.')).getLast? with
  | none => ""
  | some i => if (cs.take i).all (fun c => c = '.') then "" else ⟨cs.drop i⟩

/-- The 10 MB upload limit of documents.py line 45: `10 * 1024 * 1024`. -/
def MAX_UPLOAD_BYTES : Nat := 10 * 1024 * 1024

/-- Blob path computed at documents.py line 55:
`users/{uid}/documents/{doc_id}{file_extension}`. -/
def upload_storage_path (uid docId ext : String) : String :=
  "users/" ++ uid ++ "/documents/" ++ docId ++ ext

/-- The metadata dict stored by `upload_document` (documents.py 66-81). -/
def uploadDocData (docType docTitle : String) (file : UploadFile)
    (notes tags : Option String) (uid docId : String) (now : PyDate) : Dict :=
  [("doc_id", .vs docId),
   ("user_id", .vs uid),
   ("storage_path", .vs (upload_storage_path uid docId (splitext_ext file.filename))),
   ("doc_type", .vs docType),
   ("status", .vs "PENDING_VALIDATION"),
   ("document_title", .vs docTitle),
   ("file_name", .vs file.filename),
   ("file_size", .vn file.content.length),
   ("mime_type", .vs (file.content_type.getD "application/octet-stream")),
   ("uploaded_at", .vd now),
   ("updated_at", .vd now),
   ("notes", match notes with | some n => .vs n | none => .vnone),
   ("tags", .vlist (parse_tags tags))]

/-- The response dict built by `upload_document` (documents.py 85-92):
six fields copied out of the stored record, `created_at` taken from the
stored `uploaded_at`. -/
def uploadResponseData (d : Dict) : Dict :=
  [("doc_id", (dictGet d "doc_id").getD .vnone),
   ("user_id", (dictGet d "user_id").getD .vnone),
   ("storage_path", (dictGet d "storage_path").getD .vnone),
   ("status", (dictGet d "status").getD .vnone),
   ("created_at", (dictGet d "uploaded_at").getD .vnone),
   ("updated_at", (dictGet d "updated_at").getD .vnone)]

/-- Result of `upload_document`: status, blob `upload_from_string` calls
(path, bytes, declared content type), Firestore `set()` calls
(collection, document id, record), and the response body. -/
structure UploadOutcome where
  httpStatus : Nat
  blobWrites : List (String × List Nat × Option String)
  storeWrites : List (String × String × Dict)
  response : Option Dict
deriving DecidableEq, Repr

/-- `upload_document` (documents.py 25-103): reject an empty filename
(400), read the payload, reject more than 10 MB (400) before any write,
then write the blob, store the metadata record in collection
`"documents"` under the generated uuid `docId`, and answer 201 with the
six-field response projection. -/
def upload_document (docType docTitle : String) (file : UploadFile)
    (notes tags : Option String) (uid docId : String) (now : PyDate) :
    UploadOutcome :=
  if file.filename = "" then ⟨400, [], [], none⟩
  else if file.content.length > MAX_UPLOAD_BYTES then ⟨400, [], [], none⟩
  else
    let path := upload_storage_path uid docId (splitext_ext file.filename)
    let docData := uploadDocData docType docTitle file notes tags uid docId now
    ⟨201, [(path, file.content, file.content_type)],
     [("documents", docId, docData)],
     some (uploadResponseData docData)⟩

/-- The Firestore database: records addressed by (collection, id). -/
abbrev DB := List ((String × String) × Dict)

/-- `db.collection(coll).document(id).get()`. -/
def dbGet (db : DB) (coll id : String) : Option Dict :=
  (db.find? (fun e => e.1.1 == coll && e.1.2 == id)).map (fun e => e.2)

/-- `db.collection(coll).document(id).set(r)` (full overwrite). -/
def dbSet (db : DB) (coll id : String) (r : Dict) : DB :=
  ((coll, id), r) :: db.filter (fun e => !(e.1.1 == coll && e.1.2 == id))

/-- Apply the store writes of an upload outcome to the database. -/
def applyStoreWrites (db : DB) (ws : List (String × String × Dict)) : DB :=
  ws.foldl (fun d w => dbSet d w.1 w.2.1 w.2.2) db

/-- Python dict merge of an `update()` call: fields of `upd` override. -/
def dictMerge (d upd : Dict) : Dict :=
  upd ++ d.filter (fun kv => (dictGet upd kv.1).isNone)

/-- Request payload of `PUT /documents/{doc_id}`. Modelled from the
spec: the `UserDocumentUpdate` schema class is absent from src; its
fields are the three the handler reads (documents.py 211-218) for the
spec's "Update metadata" action: optional title, notes, tags. -/
structure DocUpdatePayload where
  document_title : Option String
  notes : Option String
  tags : Option (List String)
deriving DecidableEq, Repr

/-- Result of `update_document`: status, the `update()` calls
(collection, id, merged fields), and the response (re-fetched record). -/
structure UpdateDocResult where
  httpStatus : Nat
  patches : List (String × String × Dict)
  response : Option Dict
deriving DecidableEq, Repr

/-- `update_document` (documents.py 179-236): fetches the record from
collection `"user_documents"` (line 190), 404 when absent, 403 on
ownership mismatch, then merges `updated_at` plus any supplied fields
and returns the re-fetched record. -/
def update_document (db : DB) (docId : String) (upd : DocUpdatePayload)
    (uid : String) (now : PyDate) : UpdateDocResult :=
  match dbGet db "user_documents" docId with
  | none => ⟨404, [], none⟩
  | some doc =>
    if dictGet doc "user_id" ≠ some (.vs uid) then ⟨403, [], none⟩
    else
      let u0 : Dict := [("updated_at", .vd now)]
      let u1 := match upd.document_title with
        | some t => u0 ++ [("document_title", .vs t)]
        | none => u0
      let u2 := match upd.notes with
        | some n => u1 ++ [("notes", .vs n)]
        | none => u1
      let u3 := match upd.tags with
        | some ts => u2 ++ [("tags", .vlist ts)]
        | none => u2
      ⟨200, [("user_documents", docId, u3)], some (dictMerge doc u3)⟩

/-- Result of `download_document`: status, returned bytes, media type. -/
structure DownloadResult where
  httpStatus : Nat
  content : Option (List Nat)
  mediaType : Option String
deriving DecidableEq, Repr

/-- `download_document` (documents.py 277-342): fetches the record from
collection `"user_documents"` (line 287), 404 when absent, 403 on
ownership mismatch, 404 on a falsy or absent storage path or a missing
blob, otherwise the blob bytes with the stored MIME type
(`doc_data.get("mime_type", "application/octet-stream")`). -/
def download_document (db : DB) (docId uid : String)
    (blobExists : String → Bool) (blobBytes : String → List Nat) :
    DownloadResult :=
  match dbGet db "user_documents" docId with
  | none => ⟨404, none, none⟩
  | some doc =>
    if dictGet doc "user_id" ≠ some (.vs uid) then ⟨403, none, none⟩
    else
      match dictGet doc "storage_path" with
      | some (.vs p) =>
        if p = "" then ⟨404, none, none⟩
        else if blobExists p then
          ⟨200, some (blobBytes p),
           match dictGet doc "mime_type" with
           | some (.vs m) => some m
           | some _ => none
           | none => some "application/octet-stream"⟩
        else ⟨404, none, none⟩
      | _ => ⟨404, none, none⟩

/-- Outcome of the guarded blob-removal block of `delete_document`
(documents.py 256-264): which blob deletions were attempted, and whether
an exception was raised inside the block (and hence logged and
swallowed). The blob is only deleted when the path is truthy and
`blob.exists()`. -/
def blobCleanup (doc : Dict) (blobExists blobDeleteRaises : String → Bool) :
    List String × Bool :=
  match dictGet doc "storage_path" with
  | some (.vs p) =>
    if p = "" then ([], false)
    else if blobExists p then
      (if blobDeleteRaises p then ([p], true) else ([p], false))
    else ([], false)
  | _ => ([], false)

/-- Result of `delete_document`: status, attempted blob deletions,
whether a blob-side exception was swallowed, and the Firestore
`delete()` calls (collection, id). -/
structure DeleteDocResult where
  httpStatus : Nat
  blobDeleteAttempts : List String
  blobErrorSwallowed : Bool
  recordDeletes : List (String × String)
deriving DecidableEq, Repr

/-- `delete_document` (documents.py 239-274): fetch from collection
`"documents"`, 404 when absent, 403 on ownership mismatch, then the
guarded blob-removal block (its failure never surfaces), then delete
the metadata record unconditionally. -/
def delete_document (fetched : Option Dict) (docId uid : String)
    (blobExists blobDeleteRaises : String → Bool) : DeleteDocResult :=
  match fetched with
  | none => ⟨404, [], false, []⟩
  | some doc =>
    if dictGet doc "user_id" ≠ some (.vs uid) then ⟨403, [], false, []⟩
    else
      let c := blobCleanup doc blobExists blobDeleteRaises
      ⟨200, c.1, c.2, [("documents", docId)]⟩

/-- The aggregate object of `get_document_stats` (documents.py 357-363;
`total_size_mb`, a float, is not modelled). -/
structure UserDocStats where
  total_documents : Nat
  by_type : List (String × Nat)
  by_status : List (String × Nat)
  total_size_bytes : Nat
  recent_uploads : Nat
deriving DecidableEq, Repr

/-- `stats[k] = stats.get(k, 0) + 1` on a counter dict. -/
def bumpCount (m : List (String × Nat)) (k : String) : List (String × Nat) :=
  if (m.find? (fun kv => kv.1 = k)).isSome then
    m.map (fun kv => if kv.1 = k then (kv.1, kv.2 + 1) else kv)
  else m ++ [(k, 1)]

/-- `doc_data.get(k, dflt)` for the string-valued stats fields (the
records written by this backend always hold strings there). -/
def getStr (d : Dict) (k dflt : String) : String :=
  match dictGet d k with
  | some (.vs s) => s
  | some _ => dflt
  | none => dflt

/-- Per-document accumulation of `get_document_stats` (documents.py
368-387). -/
def statsStep (cutoff : PyDate) (st : UserDocStats) (doc : Dict) :
    UserDocStats :=
  let st1 := { st with total_documents := st.total_documents + 1 }
  let st2 := { st1 with by_type := bumpCount st1.by_type (getStr doc "doc_type" "unknown") }
  let st3 := { st2 with by_status := bumpCount st2.by_status (getStr doc "status" "unknown") }
  let st4 := { st3 with total_size_bytes := st3.total_size_bytes +
    (match dictGet doc "file_size" with | some (.vn n) => n | _ => 0) }
  match dictGet doc "uploaded_at" with
  | some (.vd d) =>
    if PyDate.le cutoff d then { st4 with recent_uploads := st4.recent_uploads + 1 }
    else st4
  | _ => st4

/-- Empty accumulator (documents.py 357-363). -/
def initDocStats : UserDocStats := ⟨0, [], [], 0, 0⟩

/-- `get_document_stats` (documents.py 345-399): the recent-uploads
cutoff is `datetime(now.year, now.month, now.day - 7)` (line 366); a
`ValueError` there is caught by the handler's blanket `except` and
surfaced as 500. -/
def get_document_stats (now : PyDate) (docs : List Dict) :
    Except Nat UserDocStats :=
  match mkDatetime now.year now.month (now.day - 7) with
  | .error _ => .error 500
  | .ok cutoff => .ok (docs.foldl (statsStep cutoff) initDocStats)

/-- Concrete upload fixture shared by the document theorems: a 2-byte
`a.pdf` uploaded by `u1` with generated id `d1`. -/
def uploadFixture : UploadOutcome :=
  upload_document "PASSPORT" "t" ⟨"a.pdf", [0, 1], some "application/pdf"⟩
    none none "u1" "d1" ⟨2026, 1, 1⟩

/-- The database after applying `uploadFixture`'s store writes to an
empty database. -/
def dbAfterUpload : DB := applyStoreWrites [] uploadFixture.storeWrites

lemma map_filter_comm {α β : Type} (f : α → β) (p : β → Bool) (l : List α) :
    (l.filter (fun a => p (f a))).map f = (l.map f).filter p := by
  induction l with
  | nil => rfl
  | cons a l ih =>
    by_cases h : p (f a) = true
    · simp [List.filter_cons, h, ih]
    · simp [List.filter_cons, h, ih]

theorem parse_tags_eq_specTags (s : String) :
    parse_tags (some s) = specTags s := by
  by_cases h : s = ""
  · subst h; decide
  · simp only [parse_tags, specTags, if_neg h]
    exact map_filter_comm pyStrip (fun t => decide (t ≠ "")) (pySplit ',' s)

lemma patchSteps_of_none (stepId : String) (u : StepUpdate) (steps : List StepDoc)
    (h : ∀ s ∈ steps, s.step_id ≠ stepId) :
    patchSteps stepId u steps = none := by
  induction steps with
  | nil => rfl
  | cons s rest ih =>
    have hs : s.step_id ≠ stepId := h s (List.mem_cons_self _ _)
    simp [patchSteps, hs, ih (fun x hx => h x (List.mem_cons_of_mem _ hx))]

lemma patchSteps_of_found (stepId : String) (u : StepUpdate) :
    ∀ (steps : List StepDoc),
      steps.findIdx (fun s => s.step_id = stepId) < steps.length →
      patchSteps stepId u steps =
        some (steps.set (steps.findIdx (fun s => s.step_id = stepId))
          (applyStepUpdate u steps[steps.findIdx (fun s => s.step_id = stepId)]!))
  | [], h => by simp at h
  | s :: rest, h => by
    by_cases hs : s.step_id = stepId
    · simp [patchSteps, hs, List.findIdx_cons]
    · have hidx : (s :: rest).findIdx (fun s => s.step_id = stepId)
          = rest.findIdx (fun s => s.step_id = stepId) + 1 := by
        simp [List.findIdx_cons, hs]
      rw [hidx] at h ⊢
      have h2 : rest.findIdx (fun s => s.step_id = stepId) < rest.length :=
        Nat.lt_of_succ_lt_succ (by simpa using h)
      simp [patchSteps, hs, patchSteps_of_found stepId u rest h2]

/-- C5: `create_application` stores exactly one record, under the generated
identifier, with `user_id` the caller's uid, status `"DRAFT"`, an empty
step list, `created_at = updated_at = now`, and returns that stored
record (as an `ApplicationResponse`, its two optional timestamps null). -/
theorem create_application_C5 (data : ApplicationCreateData) (uid appId : String)
    (now : PyDate) :
    (create_application data uid appId now).httpStatus = 201 ∧
    (create_application data uid appId now).writes =
      [(appId, ((create_application data uid appId now).writes.headI).2)] ∧
    (((create_application data uid appId now).writes.headI).2).app_id = appId ∧
    (((create_application data uid appId now).writes.headI).2).user_id = uid ∧
    (((create_application data uid appId now).writes.headI).2).status = "DRAFT" ∧
    (((create_application data uid appId now).writes.headI).2).application_steps = [] ∧
    (((create_application data uid appId now).writes.headI).2).created_at = now ∧
    (((create_application data uid appId now).writes.headI).2).updated_at = now ∧
    (((create_application data uid appId now).writes.headI).2).application_name =
      data.application_name ∧
    (((create_application data uid appId now).writes.headI).2).country_code =
      data.country_code ∧
    (create_application data uid appId now).response =
      docToResponse (((create_application data uid appId now).writes.headI).2) :=
  ⟨rfl, rfl, rfl, rfl, rfl, rfl, rfl, rfl, rfl, rfl, rfl⟩

/-- C10: `update_application` with no status supplied, on an existing
application owned by the caller, still issues exactly one store write:
a patch carrying only the fresh `updated_at`; the merged record returned
equals the stored one with only `updated_at` changed. -/
theorem update_application_C10 (app : ApplicationDoc) (appId uid : String)
    (now : PyDate) (hown : app.user_id = uid) :
    (update_application (some app) appId none uid now).httpStatus = 200 ∧
    (update_application (some app) appId none uid now).patches =
      [(appId, ⟨now, none⟩)] ∧
    (update_application (some app) appId none uid now).response =
      some (docToResponse { app with updated_at := now }) := by
  refine ⟨?_, ?_, ?_⟩ <;> simp [update_application, hown, applyAppPatch, docToResponse]

/-- Witness for C10 at a concrete owned application. -/
theorem update_application_C10_witness :
    appFixture.user_id = "u1" ∧
    (update_application (some appFixture) "a1" none "u1" ⟨2026, 1, 2⟩).patches =
      [("a1", ⟨⟨2026, 1, 2⟩, none⟩)] :=
  ⟨rfl, (update_application_C10 appFixture "a1" "u1" ⟨2026, 1, 2⟩ rfl).2.1⟩

/-- C1: when a step with the given identifier exists in an application
owned by the caller, `update_application_step` patches exactly the first
matching step (applying only the supplied `document_id`/`status`, all
other fields of that step untouched), leaves every other step unchanged,
writes the whole record back once with the bumped `updated_at`, and
returns the merged record. -/
theorem update_application_step_C1 (app : ApplicationDoc) (appId stepId : String)
    (u : StepUpdate) (uid : String) (now : PyDate)
    (hown : app.user_id = uid)
    (hfind : app.application_steps.findIdx (fun s => s.step_id = stepId) <
      app.application_steps.length) :
    let steps := app.application_steps
    let i := steps.findIdx (fun s => s.step_id = stepId)
    let old := steps[i]!
    let patched := applyStepUpdate u old
    let app1 := { app with application_steps := steps.set i patched, updated_at := now }
    let r := update_application_step (some app) appId stepId u uid now
    r.httpStatus = 200 ∧
    r.writes = [(appId, app1)] ∧
    r.response = some (docToResponse app1) ∧
    old.step_id = stepId ∧
    patched.step_id = old.step_id ∧
    patched.title = old.title ∧
    patched.description = old.description ∧
    patched.priority_score = old.priority_score ∧
    patched.requires_document = old.requires_document ∧
    patched.source_urls = old.source_urls ∧
    patched.document_id = (if u.document_id.isSome then u.document_id else old.document_id) ∧
    patched.status = u.status.getD old.status ∧
    (∀ j, j ≠ i → (steps.set i patched)[j]? = steps[j]?) := by
  intro steps i old patched app1 r
  have hpatch := patchSteps_of_found stepId u app.application_steps hfind
  have hstep : old.step_id = stepId := by
    have hp := @List.findIdx_getElem _ (fun s => s.step_id = stepId) steps hfind
    have hold : old = steps.get ⟨i, hfind⟩ := getElem!_pos steps i hfind
    rw [hold]
    exact of_decide_eq_true hp
  have hr : r = ⟨200, [(appId, app1)], some (docToResponse app1)⟩ := by
    show update_application_step (some app) appId stepId u uid now = _
    simp [update_application_step, hown, hpatch, app1, patched, old, i, steps]
  refine ⟨by rw [hr], by rw [hr], by rw [hr], hstep, ?_, ?_, ?_, ?_, ?_, ?_, ?_, ?_, ?_⟩
  · cases hd : u.document_id <;> cases hst : u.status <;>
      simp [patched, applyStepUpdate, hd, hst]
  · cases hd : u.document_id <;> cases hst : u.status <;>
      simp [patched, applyStepUpdate, hd, hst]
  · cases hd : u.document_id <;> cases hst : u.status <;>
      simp [patched, applyStepUpdate, hd, hst]
  · cases hd : u.document_id <;> cases hst : u.status <;>
      simp [patched, applyStepUpdate, hd, hst]
  · cases hd : u.document_id <;> cases hst : u.status <;>
      simp [patched, applyStepUpdate, hd, hst]
  · cases hd : u.document_id <;> cases hst : u.status <;>
      simp [patched, applyStepUpdate, hd, hst]
  · cases hd : u.document_id <;> cases hst : u.status <;>
      simp [patched, applyStepUpdate, hd, hst]
  · cases hd : u.document_id <;> cases hst : u.status <;>
      simp [patched, applyStepUpdate, hd, hst]
  · exact fun j hj => List.getElem?_set_ne (Ne.symm hj)

/-- Witness for C1: the spec's own example, a single step `s1` with
status `"pending"` updated to `"done"`. -/
theorem update_application_step_C1_witness :
    appFixture.user_id = "u1" ∧
    (appFixture.application_steps.findIdx (fun s => s.step_id = "s1") <
      appFixture.application_steps.length) ∧
    (update_application_step (some appFixture) "a1" "s1" ⟨none, some "done"⟩ "u1"
      ⟨2026, 1, 2⟩).httpStatus = 200 :=
  ⟨rfl, by decide,
    (update_application_step_C1 appFixture "a1" "s1" ⟨none, some "done"⟩ "u1"
      ⟨2026, 1, 2⟩ rfl (by decide)).1⟩

/-- C2: when no step of an owned application matches the given step
identifier, `update_application_step` fails with 404 and performs no
store write at all. -/
theorem update_application_step_C2 (app : ApplicationDoc) (appId stepId : String)
    (u : StepUpdate) (uid : String) (now : PyDate)
    (hown : app.user_id = uid)
    (hnone : ∀ s ∈ app.application_steps, s.step_id ≠ stepId) :
    (update_application_step (some app) appId stepId u uid now).httpStatus = 404 ∧
    (update_application_step (some app) appId stepId u uid now).writes = [] ∧
    (update_application_step (some app) appId stepId u uid now).response = none := by
  refine ⟨?_, ?_, ?_⟩ <;>
    simp [update_application_step, hown, patchSteps_of_none stepId u _ hnone]

/-- Witness for C2: updating unknown step `s2` on the fixture yields 404
with no write. -/
theorem update_application_step_C2_witness :
    appFixture.user_id = "u1" ∧
    (∀ s ∈ appFixture.application_steps, s.step_id ≠ "s2") ∧
    (update_application_step (some appFixture) "a1" "s2" ⟨none, some "done"⟩ "u1"
      ⟨2026, 1, 2⟩).writes = [] :=
  ⟨rfl, by decide,
    (update_application_step_C2 appFixture "a1" "s2" ⟨none, some "done"⟩ "u1"
      ⟨2026, 1, 2⟩ rfl (by decide)).2.1⟩

/-- C3: with a non-empty filename, `upload_document` answers 400 exactly
when the payload exceeds 10 MiB (10,485,760 bytes); on rejection it
performs no blob write and no store write, and within the limit it
answers 201. -/
theorem upload_size_C3 (docType docTitle : String) (file : UploadFile)
    (notes tags : Option String) (uid docId : String) (now : PyDate)
    (hname : file.filename ≠ "") :
    ((upload_document docType docTitle file notes tags uid docId now).httpStatus = 400
      ↔ file.content.length > MAX_UPLOAD_BYTES) ∧
    (file.content.length > MAX_UPLOAD_BYTES →
      (upload_document docType docTitle file notes tags uid docId now).blobWrites = [] ∧
      (upload_document docType docTitle file notes tags uid docId now).storeWrites = []) ∧
    (file.content.length ≤ MAX_UPLOAD_BYTES →
      (upload_document docType docTitle file notes tags uid docId now).httpStatus = 201) := by
  by_cases hsize : file.content.length > MAX_UPLOAD_BYTES
  · refine ⟨?_, ?_, ?_⟩ <;> simp [upload_document, hname, hsize]
  · refine ⟨?_, ?_, ?_⟩ <;> simp [upload_document, hname, hsize]

/-- Witness for C3: a 10,485,761-byte payload is rejected with 400 and a
10,485,760-byte payload is accepted with 201. -/
theorem upload_size_C3_witness :
    ("a.pdf" : String) ≠ "" ∧
    (upload_document "PASSPORT" "t" ⟨"a.pdf", List.replicate 10485761 0, none⟩
      none none "u1" "d1" ⟨2026, 1, 1⟩).httpStatus = 400 ∧
    (upload_document "PASSPORT" "t" ⟨"a.pdf", List.replicate 10485760 0, none⟩
      none none "u1" "d1" ⟨2026, 1, 1⟩).httpStatus = 201 :=
  ⟨by decide,
   (upload_size_C3 "PASSPORT" "t" ⟨"a.pdf", List.replicate 10485761 0, none⟩
      none none "u1" "d1" ⟨2026, 1, 1⟩ (by decide)).1.mpr
     (by rw [List.length_replicate]; decide),
   (upload_size_C3 "PASSPORT" "t" ⟨"a.pdf", List.replicate 10485760 0, none⟩
      none none "u1" "d1" ⟨2026, 1, 1⟩ (by decide)).2.2
     (by rw [List.length_replicate]; decide)⟩

/-- C4: a supplied tag string is stored as its comma-separated pieces,
trimmed, with empty pieces dropped: the handler's parsing (including its
empty-string fast path) coincides with that description on every input,
a missing or empty tag string yields `[]`, the spec's example
`"a, b ,c"` yields `["a","b","c"]`, and the stored record's `tags` field
holds exactly the parsed list. -/
theorem upload_tags_C4 :
    (∀ s, parse_tags (some s) = specTags s) ∧
    parse_tags none = [] ∧
    parse_tags (some "") = [] ∧
    specTags "a, b ,c" = ["a", "b", "c"] ∧
    (∀ docType docTitle file notes tags uid docId now,
      dictGet (uploadDocData docType docTitle file notes tags uid docId now) "tags"
        = some (.vlist (parse_tags tags))) :=
  ⟨parse_tags_eq_specTags, rfl, by decide, by decide,
   fun _ _ _ _ _ _ _ _ => rfl⟩

/-- Counterexample to C6 as stated: for a concrete upload, the response
is not the stored metadata record — the stored record carries
`file_name` (among other fields) while the response does not. -/
theorem upload_response_C6_counterexample :
    uploadFixture.response ≠ some uploadFixture.storeWrites.headI.2.2 ∧
    dictGet uploadFixture.storeWrites.headI.2.2 "file_name" = some (.vs "a.pdf") ∧
    dictGet (uploadFixture.response.getD []) "file_name" = none := by
  refine ⟨?_, ?_, ?_⟩ <;> decide

/-- C6 as amended: a successful `upload_document` stores one record,
in collection `"documents"` under the generated id, with status
`PENDING_VALIDATION`; the response is the six-field projection of that
stored record (`doc_id`, `user_id`, `storage_path`, `status`,
`created_at` taken from the stored `uploaded_at`, `updated_at`), each
field equal to the stored one — not the full stored record. -/
theorem upload_response_C6 (docType docTitle : String) (file : UploadFile)
    (notes tags : Option String) (uid docId : String) (now : PyDate)
    (hname : file.filename ≠ "") (hsize : file.content.length ≤ MAX_UPLOAD_BYTES) :
    (upload_document docType docTitle file notes tags uid docId now).httpStatus = 201 ∧
    (upload_document docType docTitle file notes tags uid docId now).storeWrites =
      [("documents", docId,
        (upload_document docType docTitle file notes tags uid docId now).storeWrites.headI.2.2)] ∧
    dictGet (upload_document docType docTitle file notes tags uid docId now).storeWrites.headI.2.2
      "status" = some (.vs "PENDING_VALIDATION") ∧
    (upload_document docType docTitle file notes tags uid docId now).response =
      some (uploadResponseData
        (upload_document docType docTitle file notes tags uid docId now).storeWrites.headI.2.2) ∧
    ((uploadResponseData
        (upload_document docType docTitle file notes tags uid docId now).storeWrites.headI.2.2).map
      (fun kv => kv.1)) =
      ["doc_id", "user_id", "storage_path", "status", "created_at", "updated_at"] := by
  have hlt : ¬ file.content.length > MAX_UPLOAD_BYTES := Nat.not_lt.mpr hsize
  have ho : upload_document docType docTitle file notes tags uid docId now =
      ⟨201,
       [(upload_storage_path uid docId (splitext_ext file.filename), file.content,
         file.content_type)],
       [("documents", docId, uploadDocData docType docTitle file notes tags uid docId now)],
       some (uploadResponseData
         (uploadDocData docType docTitle file notes tags uid docId now))⟩ := by
    simp [upload_document, hname, hlt]
  rw [ho]
  exact ⟨rfl, rfl, rfl, rfl, rfl⟩

/-- Witness for the amended C6 at the concrete fixture upload. -/
theorem upload_response_C6_witness :
    ("a.pdf" : String) ≠ "" ∧ ([0, 1] : List Nat).length ≤ MAX_UPLOAD_BYTES ∧
    dictGet (upload_document "PASSPORT" "t" ⟨"a.pdf", [0, 1], some "application/pdf"⟩
      none none "u1" "d1" ⟨2026, 1, 1⟩).storeWrites.headI.2.2 "status" =
      some (.vs "PENDING_VALIDATION") :=
  ⟨by decide, by decide,
   (upload_response_C6 "PASSPORT" "t" ⟨"a.pdf", [0, 1], some "application/pdf"⟩
      none none "u1" "d1" ⟨2026, 1, 1⟩ (by decide) (by decide)).2.2.1⟩

/-- C7 fails on the code: `upload_document` stores into collection
`"documents"`, but `update_document` and `download_document` read from
`"user_documents"`; after an upload the record is present under
`"documents"` yet both handlers answer 404 to the owner. -/
theorem document_tables_C7 :
    (dbGet dbAfterUpload "documents" "d1").isSome = true ∧
    (update_document dbAfterUpload "d1" ⟨some "new title", none, none⟩ "u1"
      ⟨2026, 1, 2⟩).httpStatus = 404 ∧
    (download_document dbAfterUpload "d1" "u1" (fun _ => true)
      (fun _ => [0, 1])).httpStatus = 404 := by
  refine ⟨?_, ?_, ?_⟩ <;> decide

/-- C8: for an owned document, `delete_document` always answers 200 and
always issues the metadata `delete()` — whatever the blob's existence
and whether or not the blob deletion raises; a blob-side failure is
swallowed, never surfaced. -/
theorem delete_document_C8 (doc : Dict) (docId uid : String)
    (blobExists blobDeleteRaises : String → Bool)
    (hown : dictGet doc "user_id" = some (.vs uid)) :
    (delete_document (some doc) docId uid blobExists blobDeleteRaises).httpStatus = 200 ∧
    (delete_document (some doc) docId uid blobExists blobDeleteRaises).recordDeletes =
      [("documents", docId)] := by
  refine ⟨?_, ?_⟩ <;> simp [delete_document, hown]

/-- Witness for C8: concrete owned document whose blob exists and whose
blob deletion raises — the record deletion still succeeds with 200. -/
theorem delete_document_C8_witness :
    dictGet [("user_id", Val.vs "u1"), ("storage_path", Val.vs "p")] "user_id" =
      some (Val.vs "u1") ∧
    (delete_document (some [("user_id", Val.vs "u1"), ("storage_path", Val.vs "p")])
      "d1" "u1" (fun _ => true) (fun _ => true)).httpStatus = 200 :=
  ⟨by decide,
   (delete_document_C8 [("user_id", Val.vs "u1"), ("storage_path", Val.vs "p")]
      "d1" "u1" (fun _ => true) (fun _ => true) (by decide)).1⟩

/-- Counterexample to C9 as stated: on 2026-03-03 (a valid date) the
cutoff `datetime(2026, 3, 3 - 7)` raises, and `get_document_stats`
answers 500 without any store error. -/
theorem stats_cutoff_C9_counterexample :
    get_document_stats ⟨2026, 3, 3⟩ [] = .error 500 := rfl

/-- C9 as amended: for a valid current date, the cutoff computation
`datetime(now.year, now.month, now.day - 7)` is well-defined exactly
when the day of month is at least 8; then the 200 aggregate is
returned, while on the first seven days of any month the handler
answers 500 even though the store did not fail. -/
theorem stats_cutoff_C9 (now : PyDate) (docs : List Dict)
    (hvalid : dateValid now.year now.month now.day = true) :
    (8 ≤ now.day → get_document_stats now docs =
      .ok (docs.foldl (statsStep ⟨now.year, now.month, now.day - 7⟩) initDocStats)) ∧
    (now.day < 8 → get_document_stats now docs = .error 500) := by
  simp only [dateValid, Bool.and_eq_true, decide_eq_true_eq] at hvalid
  obtain ⟨⟨⟨h1, h2⟩, h3⟩, h4⟩ := hvalid
  constructor
  · intro h8
    have hv : dateValid now.year now.month (now.day - 7) = true := by
      simp only [dateValid, Bool.and_eq_true, decide_eq_true_eq]
      exact ⟨⟨⟨h1, h2⟩, by omega⟩, by omega⟩
    simp [get_document_stats, mkDatetime, hv]
  · intro h7
    have hv : dateValid now.year now.month (now.day - 7) = false := by
      cases hdv : dateValid now.year now.month (now.day - 7) with
      | false => rfl
      | true =>
        exfalso
        simp only [dateValid, Bool.and_eq_true, decide_eq_true_eq] at hdv
        omega
    simp [get_document_stats, mkDatetime, hv]

/-- Witness for the amended C9: on 2026-10-12 the stats call succeeds. -/
theorem stats_cutoff_C9_witness :
    dateValid 2026 10 12 = true ∧
    get_document_stats ⟨2026, 10, 12⟩ [] = .ok initDocStats :=
  ⟨by decide, (stats_cutoff_C9 ⟨2026, 10, 12⟩ [] (by decide)).1 (by decide)⟩
